import Mathlib

/-!
Shallow embedding of the HaHaHash Telegram bot (src/bot.py, src/utils.py).

Conventions of the embedding:
* JSON values coming back from the Solana RPC are modelled structurally:
  only the fields the code reads are kept, each optional field is an
  `Option` (Python `dict.get` returning `None` / a default).
* SQLite tables are lists of row structures inside a `DB` state; each
  handler is a pure function `DB → ... → DB × reply`.
* Python floats for SOL amounts are modelled as exact rationals `ℚ`;
  the code's `lamports / 1e9 == expected_amount` comparison becomes
  exact rational equality, matching the spec's "exact equality, no
  tolerance" reading.
* Network effects are parameters: the signature-list HTTP status and the
  per-signature detail responses are inputs to `verify_payment`; the
  generative model is an oracle function argument to `chat`.
-/

/-- The `info` object of a parsed instruction, as read by
`verify_payment`: `parsed["info"].get("destination")`,
`.get("source")`, `.get("lamports", 0)`. A missing `info` dict behaves
like the record with every field `none`. -/
structure TransferInfo where
  destination : Option String
  source : Option String
  lamports : Option Int
  deriving Repr, DecidableEq

/-- The `parsed` object of an instruction. The `type` tag is carried but
never inspected by the code (`verify_payment` looks only at `info`). -/
structure ParsedInstr where
  type : Option String
  info : TransferInfo
  deriving Repr, DecidableEq

/-- One entry of `transaction.message.instructions`. `parsed = none`
models a missing or empty (falsy) `parsed` field. -/
structure Instruction where
  parsed : Option ParsedInstr
  deriving Repr, DecidableEq

/-- The `result` object of a `getTransaction` response:
`transaction.message.instructions` (default `[]`). -/
structure TxnData where
  instructions : List Instruction
  deriving Repr, DecidableEq

/-- A `getTransaction` HTTP response: status code plus the `result`
field; `result = none` models a missing or empty (falsy) `result`. -/
structure TxnResponse where
  status_code : Nat
  result : Option TxnData
  deriving Repr, DecidableEq

/-- The inner-loop test of `verify_payment` on one instruction:
`parsed` truthy, `parsed.info.destination == receiving_wallet`, then
`source == sender_wallet and lamports / 1e9 == expected_amount`.
Missing `lamports` defaults to `0` (`.get("lamports", 0)`). -/
def instructionMatches (receiving_wallet sender_wallet : String)
    (expected_amount : ℚ) (ins : Instruction) : Bool :=
  match ins.parsed with
  | none => false
  | some p =>
    if p.info.destination == some receiving_wallet then
      let lamports : Int := p.info.lamports.getD 0
      let amount_received : ℚ := (lamports : ℚ) / (10 ^ 9 : ℚ)
      p.info.source == some sender_wallet && amount_received == expected_amount
    else
      false

/-- The signature-scanning loop of `verify_payment`: for each signature
(newest first), a failed detail fetch (`status_code != 200`) or an
empty `result` is skipped with `continue`; otherwise the transaction's
instructions are scanned and the signature is returned on the first
full match. -/
def scanTxns (receiving_wallet sender_wallet : String) (expected_amount : ℚ) :
    List (String × TxnResponse) → Option String
  | [] => none
  | (sig, resp) :: rest =>
    if resp.status_code ≠ 200 then
      scanTxns receiving_wallet sender_wallet expected_amount rest
    else
      match resp.result with
      | none => scanTxns receiving_wallet sender_wallet expected_amount rest
      | some txn_data =>
        if txn_data.instructions.any
            (fun ins => instructionMatches receiving_wallet sender_wallet expected_amount ins) then
          some sig
        else
          scanTxns receiving_wallet sender_wallet expected_amount rest

/-- Model of `utils.verify_payment`: the `getSignaturesForAddress` call is
modelled by its HTTP status `sig_status` and the fetched environment
`txns`, pairing each signature with its `getTransaction` response in
newest-first order. A non-200 `sig_status` aborts with `none`. -/
def verify_payment (receiving_wallet sender_wallet : String)
    (expected_amount : ℚ) (sig_status : Nat)
    (txns : List (String × TxnResponse)) : Option String :=
  if sig_status ≠ 200 then none
  else scanTxns receiving_wallet sender_wallet expected_amount txns

/-! ## The SQLite store (bot.py `create_tables`) -/

/-- A row of `users`: `id` primary key, `telegram_id` unique,
`message_count` defaults to 0. -/
structure UserRow where
  id : Nat
  telegram_id : Int
  name : String
  message_count : Int
  deriving Repr, DecidableEq

/-- A row of `messages` (the autoincrement id and timestamp are
represented by list position: the list is kept in insertion order,
which is the `ORDER BY timestamp` order read back). -/
structure MessageRow where
  user_id : Nat
  message : String
  role : String
  deriving Repr, DecidableEq

/-- A row of `wallets`: `user_id` unique. -/
structure WalletRow where
  user_id : Nat
  wallet_address : String
  deriving Repr, DecidableEq

/-- A row of `payments`: `transaction_id` unique. -/
structure PaymentRow where
  user_id : Nat
  transaction_id : String
  amount : ℚ
  status : String
  deriving Repr, DecidableEq

/-- The whole store. -/
structure DB where
  users : List UserRow
  messages : List MessageRow
  wallets : List WalletRow
  payments : List PaymentRow
  deriving Repr, DecidableEq

/-- Model of `ensure_user`: `INSERT OR IGNORE INTO users (telegram_id, name)`.
The fresh primary key is modelled as `users.length + 1`; no claim
depends on its value, only on row lookup by `telegram_id` or `id`. -/
def ensure_user (db : DB) (telegram_id : Int) (name : String) : DB :=
  if db.users.any (fun u => u.telegram_id == telegram_id) then db
  else { db with users := db.users ++ [⟨db.users.length + 1, telegram_id, name, 0⟩] }

/-- Model of `get_user_id`: `SELECT id FROM users WHERE telegram_id = ?`,
first row or `None`. -/
def get_user_id (db : DB) (telegram_id : Int) : Option Nat :=
  (db.users.find? (fun u => u.telegram_id == telegram_id)).map (fun u => u.id)

/-- Model of `increment_message_count`: `UPDATE users SET message_count =
message_count + 1 WHERE id = ?` then `SELECT message_count`; returns
the new count, or 0 when no row matches. -/
def increment_message_count (db : DB) (user_id : Nat) : DB × Int :=
  let users' := db.users.map
    (fun u => if u.id == user_id then { u with message_count := u.message_count + 1 } else u)
  let db' := { db with users := users' }
  match users'.find? (fun u => u.id == user_id) with
  | some u => (db', u.message_count)
  | none => (db', 0)

/-- Model of `store_message`: append to `messages`. -/
def store_message (db : DB) (user_id : Nat) (message role : String) : DB :=
  { db with messages := db.messages ++ [⟨user_id, message, role⟩] }

/-- Model of `get_user_history`: `SELECT message, role FROM messages WHERE
user_id = ? ORDER BY timestamp`. -/
def get_user_history (db : DB) (user_id : Nat) : List (String × String) :=
  (db.messages.filter (fun m => m.user_id == user_id)).map (fun m => (m.message, m.role))

/-- The read `SELECT wallet_address FROM wallets WHERE user_id = ?`, first row. -/
def get_wallet (db : DB) (user_id : Nat) : Option String :=
  (db.wallets.find? (fun w => w.user_id == user_id)).map (fun w => w.wallet_address)

/-- The read `SELECT message_count FROM users WHERE id = ?`, first row (used to
state properties; mirrors the reads the handlers perform). -/
def get_message_count (db : DB) (user_id : Nat) : Option Int :=
  (db.users.find? (fun u => u.id == user_id)).map (fun u => u.message_count)

/-- The `INSERT INTO payments ... VALUES (?, ?, ?, 'verified')` write:
`transaction_id` is `UNIQUE`, so a duplicate raises
`IntegrityError`, modelled as `none` (no mutation). -/
def insert_payment (db : DB) (user_id : Nat) (transaction_id : String)
    (amount : ℚ) (status : String) : Option DB :=
  if db.payments.any (fun p => p.transaction_id == transaction_id) then none
  else some { db with payments := db.payments ++ [⟨user_id, transaction_id, amount, status⟩] }

/-- The write `UPDATE users SET message_count = 0 WHERE id = ?`. -/
def reset_message_count (db : DB) (user_id : Nat) : DB :=
  let users' := db.users.map
    (fun u => if u.id == user_id then { u with message_count := 0 } else u)
  { db with users := users' }

/-- The wallet upsert: `INSERT INTO wallets ... ON CONFLICT(user_id) DO
UPDATE SET wallet_address = excluded.wallet_address`. -/
def upsert_wallet (db : DB) (user_id : Nat) (wallet_address : String) : DB :=
  if db.wallets.any (fun w => w.user_id == user_id) then
    let wallets' := db.wallets.map
      (fun w => if w.user_id == user_id then { w with wallet_address := wallet_address } else w)
    { db with wallets := wallets' }
  else
    { db with wallets := db.wallets ++ [⟨user_id, wallet_address⟩] }

/-! ## Reply strings (verbatim from bot.py) -/

def noWalletReply : String := "Provide your wallet address first. Use /wallet <wallet_address>."

def paymentVerifiedReply : String := "Payment verified!"

def paymentUsedReply : String := "Payment already used!"

def paymentNotFoundReply : String := "Payment not found."

/-- The over-limit prompt of `chat` (the receiving address comes from
the `CRYPTO_WALLET_ADDRESS` environment variable). -/
def limitReachedReply (crypto_wallet_address : String) : String :=
  "Limit reached. Send 0.001 SOL to " ++ crypto_wallet_address ++ " and verify using /paid."

def invalidWalletReply : String :=
  "Invalid wallet address format. Please ensure it is a valid Solana wallet address."

def provideWalletFormatReply : String :=
  "Please provide your Solana wallet address in the following format:\n`/wallet <your_wallet_address>`"

def walletSavedReply (wallet_address : String) : String :=
  "Your wallet address has been saved successfully: `" ++ wallet_address ++ "`"

/-! ## Handlers -/

/-- The `/paid` handler. The network is passed in as the signature-list
status and the fetched transaction environment; the expected amount is
the hard-coded `0.001` SOL. Returns the new store and the reply text.
The inner `none` branch of `get_user_id` is dead code: `ensure_user`
runs first, so the user row always exists (see
`get_user_id_ensure_user_isSome`); its reply matches the Python
behavior of an empty wallet `SELECT`. -/
def paid (crypto_wallet_address : String) (sig_status : Nat)
    (txns : List (String × TxnResponse)) (db : DB)
    (telegram_id : Int) (name : String) : DB × String :=
  let db1 := ensure_user db telegram_id name
  match get_user_id db1 telegram_id with
  | none => (db1, noWalletReply)
  | some user_id =>
    match get_wallet db1 user_id with
    | none => (db1, noWalletReply)
    | some wallet_address =>
      match verify_payment crypto_wallet_address wallet_address (1 / 1000 : ℚ)
          sig_status txns with
      | none => (db1, paymentNotFoundReply)
      | some txn_id =>
        match insert_payment db1 user_id txn_id (1 / 1000 : ℚ) "verified" with
        | none => (db1, paymentUsedReply)
        | some db2 => (reset_message_count db2 user_id, paymentVerifiedReply)

/-- The `chat` handler for free-text messages. `gen` is the language
model oracle (`generate_response` over the rendered history). Returns
the new store, the reply text, and whether the model was invoked.
The `get_user_id = none` branch is dead code (`ensure_user` runs
first; see `get_user_id_ensure_user_isSome`). -/
def chat (crypto_wallet_address : String)
    (gen : List (String × String) → String) (db : DB)
    (telegram_id : Int) (name : String) (text : String) : DB × String × Bool :=
  let db1 := ensure_user db telegram_id name
  match get_user_id db1 telegram_id with
  | none => (db1, "", false)
  | some user_id =>
    let incr := increment_message_count db1 user_id
    let db2 := incr.1
    let message_count := incr.2
    if message_count > 20 then
      match get_wallet db2 user_id with
      | none => (db2, noWalletReply, false)
      | some _ => (db2, limitReachedReply crypto_wallet_address, false)
    else
      let db3 := store_message db2 user_id text "user"
      let history := get_user_history db3 user_id
      let bot_response := gen history
      let db4 := store_message db3 user_id bot_response "bot"
      (db4, bot_response, true)

/-- Python `str.isalnum()` restricted to the modelled character set:
nonempty and every character alphanumeric. -/
def pyIsAlnum (s : String) : Bool :=
  s.length != 0 && s.toList.all (fun c => c.isAlphanum)

/-- The `/wallet` handler; `args` are the command arguments. The
`get_user_id = none` branch is dead code (`ensure_user` runs first;
see `get_user_id_ensure_user_isSome`). -/
def wallet (db : DB) (telegram_id : Int) (name : String)
    (args : List String) : DB × String :=
  let db1 := ensure_user db telegram_id name
  match get_user_id db1 telegram_id with
  | none => (db1, "")
  | some user_id =>
    match args with
    | [] => (db1, provideWalletFormatReply)
    | wallet_address :: _ =>
      if wallet_address.length != 44 || !(pyIsAlnum wallet_address) then
        (db1, invalidWalletReply)
      else
        (upsert_wallet db1 user_id wallet_address, walletSavedReply wallet_address)

/-! ## generate_response -/

/-- JSON values, for the parsed model reply. -/
inductive Json where
  | null
  | bool (b : Bool)
  | num (q : ℚ)
  | str (s : String)
  | arr (elems : List Json)
  | obj (fields : List (String × Json))
  deriving Repr

/-- Python dict key lookup on a parsed JSON object (`json.loads`
deduplicates keys, so the association list has distinct keys). -/
def lookupField (fields : List (String × Json)) (key : String) : Option Json :=
  (fields.find? (fun kv => kv.1 == key)).map (fun kv => kv.2)

/-- The body of `generate_response` after `json.loads` succeeded on an
object: the `try` block evaluates `result['plan']` inside the debug
log line BEFORE returning `result["message"]`; a missing key raises
`KeyError` whose caught rendering is `Error: 'plan'` (resp.
`Error: 'message'`). -/
def generate_response_parsed (result : List (String × Json)) : Json :=
  match lookupField result "plan" with
  | none => Json.str "Error: \x27plan\x27"
  | some _ =>
    match lookupField result "message" with
    | none => Json.str "Error: \x27message\x27"
    | some v => v

/-! ## Scan-level helper lemmas -/

/-- Characterization of one scan step: an entry yields a hit exactly
when its detail fetch succeeded (status 200, truthy `result`) and some
instruction passes `instructionMatches`. -/
def txnCodeMatch (receiving_wallet sender_wallet : String) (expected_amount : ℚ)
    (resp : TxnResponse) : Bool :=
  resp.status_code == 200 &&
    match resp.result with
    | none => false
    | some txn_data =>
      txn_data.instructions.any
        (fun ins => instructionMatches receiving_wallet sender_wallet expected_amount ins)

theorem scanTxns_cons (r s : String) (e : ℚ) (sig : String) (resp : TxnResponse)
    (rest : List (String × TxnResponse)) :
    scanTxns r s e ((sig, resp) :: rest)
      = if txnCodeMatch r s e resp then some sig else scanTxns r s e rest := by
  obtain ⟨st, res⟩ := resp
  by_cases hst : st = 200
  · subst hst
    cases res with
    | none => simp [scanTxns, txnCodeMatch]
    | some txn_data =>
      by_cases hm : txn_data.instructions.any (fun ins => instructionMatches r s e ins)
      · simp [scanTxns, txnCodeMatch, hm]
      · simp [scanTxns, txnCodeMatch, hm]
  · cases res <;> simp [scanTxns, txnCodeMatch, hst]

theorem scanTxns_eq_none (r s : String) (e : ℚ) (txns : List (String × TxnResponse))
    (h : ∀ q ∈ txns, txnCodeMatch r s e q.2 = false) :
    scanTxns r s e txns = none := by
  induction txns with
  | nil => rfl
  | cons q rest ih =>
    obtain ⟨sig, resp⟩ := q
    rw [scanTxns_cons, h ⟨sig, resp⟩ (List.mem_cons_self _ _)]
    simp only [Bool.false_eq_true, if_false]
    exact ih (fun q hq => h q (List.mem_cons_of_mem _ hq))

theorem scanTxns_append_of_no_match (r s : String) (e : ℚ)
    (pre post : List (String × TxnResponse))
    (h : ∀ q ∈ pre, txnCodeMatch r s e q.2 = false) :
    scanTxns r s e (pre ++ post) = scanTxns r s e post := by
  induction pre with
  | nil => rfl
  | cons q rest ih =>
    obtain ⟨sig, resp⟩ := q
    rw [List.cons_append, scanTxns_cons, h ⟨sig, resp⟩ (List.mem_cons_self _ _)]
    simp only [Bool.false_eq_true, if_false]
    exact ih (fun q hq => h q (List.mem_cons_of_mem _ hq))

theorem instructionMatches_false_of_dest (r s : String) (e : ℚ) (ins : Instruction)
    (h : ∀ p, ins.parsed = some p → p.info.destination ≠ some r) :
    instructionMatches r s e ins = false := by
  unfold instructionMatches
  cases hp : ins.parsed with
  | none => rfl
  | some p => simp [h p hp]

theorem instructionMatches_false_of_amount (r s : String) (e : ℚ) (ins : Instruction)
    (h : ∀ p, ins.parsed = some p → p.info.destination = some r →
      p.info.source = some s → ((p.info.lamports.getD 0 : ℤ) : ℚ) / (10 ^ 9 : ℚ) ≠ e) :
    instructionMatches r s e ins = false := by
  unfold instructionMatches
  cases hp : ins.parsed with
  | none => rfl
  | some p =>
    by_cases hd : p.info.destination = some r
    · by_cases hs : p.info.source = some s
      · simp [hd, hs, h p hp hd hs]
      · simp [hd, hs]
    · simp [hd]

theorem txnCodeMatch_false_of_instr (r s : String) (e : ℚ) (resp : TxnResponse)
    (h : ∀ txn_data, resp.result = some txn_data →
        ∀ ins ∈ txn_data.instructions, instructionMatches r s e ins = false) :
    txnCodeMatch r s e resp = false := by
  unfold txnCodeMatch
  cases hres : resp.result with
  | none => simp
  | some txn_data =>
    have : txn_data.instructions.any (fun ins => instructionMatches r s e ins) = false :=
      List.any_eq_false.mpr (by
        intro ins hins
        simp [h txn_data hres ins hins])
    simp [this]

theorem instructionMatches_true (r s : String) (e : ℚ) (ins : Instruction) (p : ParsedInstr)
    (hp : ins.parsed = some p) (hd : p.info.destination = some r)
    (hs : p.info.source = some s)
    (hl : ((p.info.lamports.getD 0 : ℤ) : ℚ) = e * 10 ^ 9) :
    instructionMatches r s e ins = true := by
  unfold instructionMatches
  rw [hp]
  have hdiv : ((p.info.lamports.getD 0 : ℤ) : ℚ) / (10 ^ 9 : ℚ) = e :=
    (div_eq_iff (by norm_num)).mpr hl
  simp [hd, hs, hdiv]

/-- C2: when some scanned (successfully fetched) transaction holds a
parsed instruction with destination = receiving address, source =
sender address, and lamports = expected_amount × 10⁹ exactly,
`verify_payment` returns the signature of the first such transaction
in the newest-first scan order. -/
theorem C2_first_matching_signature_returned (receiving sender : String) (expected : ℚ)
    (pre post : List (String × TxnResponse)) (sig : String) (resp : TxnResponse)
    (txn_data : TxnData) (ins : Instruction) (p : ParsedInstr)
    (hok : resp.status_code = 200)
    (hres : resp.result = some txn_data)
    (hins : ins ∈ txn_data.instructions)
    (hparsed : ins.parsed = some p)
    (hdest : p.info.destination = some receiving)
    (hsrc : p.info.source = some sender)
    (hlam : ((p.info.lamports.getD 0 : ℤ) : ℚ) = expected * 10 ^ 9)
    (hpre : ∀ q ∈ pre, txnCodeMatch receiving sender expected q.2 = false) :
    verify_payment receiving sender expected 200 (pre ++ (sig, resp) :: post) = some sig := by
  unfold verify_payment
  rw [if_neg (by simp)]
  rw [scanTxns_append_of_no_match receiving sender expected pre _ hpre, scanTxns_cons]
  have hmatch : txnCodeMatch receiving sender expected resp = true := by
    unfold txnCodeMatch
    rw [hres, hok]
    simp only [beq_self_eq_true, Bool.true_and]
    exact List.any_eq_true.mpr
      ⟨ins, hins, instructionMatches_true receiving sender expected ins p hparsed hdest hsrc hlam⟩
  rw [hmatch]
  simp

theorem C2_first_matching_signature_returned_witness :
    verify_payment "R" "S" (1 / 1000) 200
      ([("TX0", ⟨500, none⟩)] ++
        ("TX1", ⟨200, some ⟨[⟨some ⟨some "transfer", ⟨some "R", some "S", some 1000000⟩⟩⟩]⟩⟩) :: [])
      = some "TX1" := by
  refine C2_first_matching_signature_returned "R" "S" (1 / 1000) _ _ "TX1" _
    ⟨[⟨some ⟨some "transfer", ⟨some "R", some "S", some 1000000⟩⟩⟩]⟩
    ⟨some ⟨some "transfer", ⟨some "R", some "S", some 1000000⟩⟩⟩
    ⟨some "transfer", ⟨some "R", some "S", some 1000000⟩⟩
    rfl rfl (by simp) rfl rfl rfl (by norm_num) ?_
  intro q hq
  simp only [List.mem_singleton] at hq
  subst hq
  rfl

/-- C3: `verify_payment` returns `none` when the signature list is
empty, when no scanned instruction's destination equals the receiving
address, and when every candidate instruction's converted amount
(lamports / 10⁹) differs from the expected amount (exact equality, no
tolerance band). -/
theorem txnCodeMatch_false_of_status (r s : String) (e : ℚ) (resp : TxnResponse)
    (h : resp.status_code ≠ 200) : txnCodeMatch r s e resp = false := by
  unfold txnCodeMatch
  simp [h]

theorem C3_not_found_cases (receiving sender : String) (expected : ℚ) (st : Nat)
    (txns : List (String × TxnResponse)) :
    verify_payment receiving sender expected st [] = none
    ∧ ((∀ q ∈ txns, (q : String × TxnResponse).2.status_code = 200 →
          ∀ txn_data, (q : String × TxnResponse).2.result = some txn_data →
          ∀ ins ∈ txn_data.instructions, ∀ p, ins.parsed = some p →
            p.info.destination ≠ some receiving) →
        verify_payment receiving sender expected st txns = none)
    ∧ ((∀ q ∈ txns, (q : String × TxnResponse).2.status_code = 200 →
          ∀ txn_data, (q : String × TxnResponse).2.result = some txn_data →
          ∀ ins ∈ txn_data.instructions, ∀ p, ins.parsed = some p →
            p.info.destination = some receiving → p.info.source = some sender →
            ((p.info.lamports.getD 0 : ℤ) : ℚ) / (10 ^ 9 : ℚ) ≠ expected) →
        verify_payment receiving sender expected st txns = none) := by
  refine ⟨?_, ?_, ?_⟩
  · unfold verify_payment
    by_cases hst : st = 200 <;> simp [hst, scanTxns]
  · intro h
    unfold verify_payment
    by_cases hst : st = 200
    · rw [if_neg (by simp [hst])]
      refine scanTxns_eq_none receiving sender expected txns (fun q hq => ?_)
      by_cases hqs : q.2.status_code = 200
      · refine txnCodeMatch_false_of_instr receiving sender expected q.2
          (fun txn_data hres ins hins => ?_)
        exact instructionMatches_false_of_dest receiving sender expected ins
          (fun p hp => h q hq hqs txn_data hres ins hins p hp)
      · exact txnCodeMatch_false_of_status receiving sender expected q.2 hqs
    · simp [hst]
  · intro h
    unfold verify_payment
    by_cases hst : st = 200
    · rw [if_neg (by simp [hst])]
      refine scanTxns_eq_none receiving sender expected txns (fun q hq => ?_)
      by_cases hqs : q.2.status_code = 200
      · refine txnCodeMatch_false_of_instr receiving sender expected q.2
          (fun txn_data hres ins hins => ?_)
        exact instructionMatches_false_of_amount receiving sender expected ins
          (fun p hp hd hs => h q hq hqs txn_data hres ins hins p hp hd hs)
      · exact txnCodeMatch_false_of_status receiving sender expected q.2 hqs
    · simp [hst]

theorem C3_not_found_cases_witness :
    verify_payment "R" "S" (1 / 1000) 200 [] = none
    ∧ verify_payment "R" "S" (1 / 1000) 200
        [("TX1", ⟨200, some ⟨[⟨some ⟨some "transfer", ⟨some "R", some "S", some 1100000⟩⟩⟩]⟩⟩)]
      = none := by
  constructor
  · exact (C3_not_found_cases "R" "S" (1 / 1000) 200 []).1
  · refine (C3_not_found_cases "R" "S" (1 / 1000) 200
      [("TX1", ⟨200, some ⟨[⟨some ⟨some "transfer", ⟨some "R", some "S", some 1100000⟩⟩⟩]⟩⟩)]).2.2 ?_
    intro q hq hqs txn_data hres ins hins p hp hd hs
    simp only [List.mem_singleton] at hq
    subst hq
    simp only at hres
    cases hres
    simp only [List.mem_singleton] at hins
    subst hins
    cases hp
    norm_num

/-- C4: a non-success signature-list response aborts the whole
verification with `none`; a non-success (or empty-result) detail
response for one transaction only skips that transaction, scanning
continuing with the remaining signatures. -/
theorem C4_rpc_failure_handling (receiving sender : String) (expected : ℚ) (st : Nat)
    (txns rest : List (String × TxnResponse)) (sig : String) (resp : TxnResponse) :
    (st ≠ 200 → verify_payment receiving sender expected st txns = none)
    ∧ (resp.status_code ≠ 200 →
        verify_payment receiving sender expected 200 ((sig, resp) :: rest)
          = verify_payment receiving sender expected 200 rest)
    ∧ (resp.result = none →
        verify_payment receiving sender expected 200 ((sig, resp) :: rest)
          = verify_payment receiving sender expected 200 rest) := by
  refine ⟨?_, ?_, ?_⟩
  · intro hst
    unfold verify_payment
    simp [hst]
  · intro hresp
    unfold verify_payment
    rw [if_neg (by simp), if_neg (by simp), scanTxns_cons]
    have : txnCodeMatch receiving sender expected resp = false := by
      unfold txnCodeMatch
      simp [hresp]
    rw [this]
    simp
  · intro hres
    unfold verify_payment
    rw [if_neg (by simp), if_neg (by simp), scanTxns_cons]
    have : txnCodeMatch receiving sender expected resp = false := by
      unfold txnCodeMatch
      rw [hres]
      simp
    rw [this]
    simp

theorem C4_rpc_failure_handling_witness :
    verify_payment "R" "S" (1 / 1000) 500
      [("TX1", ⟨200, some ⟨[⟨some ⟨some "transfer", ⟨some "R", some "S", some 1000000⟩⟩⟩]⟩⟩)] = none
    ∧ verify_payment "R" "S" (1 / 1000) 200 [("TX1", ⟨404, none⟩)]
        = verify_payment "R" "S" (1 / 1000) 200 []
    ∧ verify_payment "R" "S" (1 / 1000) 200 [("TX2", ⟨200, none⟩)]
        = verify_payment "R" "S" (1 / 1000) 200 [] :=
  ⟨(C4_rpc_failure_handling "R" "S" (1 / 1000) 500 _ [] "TX1" ⟨404, none⟩).1 (by simp),
   (C4_rpc_failure_handling "R" "S" (1 / 1000) 200 [] [] "TX1" ⟨404, none⟩).2.1 (by simp),
   (C4_rpc_failure_handling "R" "S" (1 / 1000) 200 [] [] "TX2" ⟨200, none⟩).2.2 rfl⟩

/-- C10: an instruction whose `info` lacks `lamports` is treated as
transferring 0 lamports, so with `expected_amount = 0` any parsed
instruction with matching destination and source — whatever its `type`
tag — matches, and its transaction's signature is returned. -/
theorem C10_missing_lamports_matches_zero (receiving sender sig : String)
    (ty : Option String) (rest : List (String × TxnResponse)) :
    instructionMatches receiving sender 0 ⟨some ⟨ty, ⟨some receiving, some sender, none⟩⟩⟩ = true
    ∧ verify_payment receiving sender 0 200
        ((sig, ⟨200, some ⟨[⟨some ⟨ty, ⟨some receiving, some sender, none⟩⟩⟩]⟩⟩) :: rest)
      = some sig := by
  constructor
  · simp [instructionMatches]
  · unfold verify_payment
    rw [if_neg (by simp), scanTxns_cons]
    have : txnCodeMatch receiving sender 0 ⟨200, some ⟨[⟨some ⟨ty, ⟨some receiving, some sender, none⟩⟩⟩]⟩⟩ = true := by
      simp [txnCodeMatch, instructionMatches]
    rw [this]
    simp

/-! ## Store-level helper lemmas -/

theorem find?_map_update {α : Type} (p : α → Bool) (f : α → α)
    (hf : ∀ a, p (f a) = p a) (l : List α) :
    (l.map (fun a => if p a then f a else a)).find? p = (l.find? p).map f := by
  induction l with
  | nil => rfl
  | cons a l ih =>
    by_cases ha : p a
    · rw [List.map_cons, if_pos ha, List.find?_cons_of_pos _ (by rw [hf a]; exact ha),
        List.find?_cons_of_pos _ ha, Option.map_some']
    · rw [List.map_cons, if_neg ha, List.find?_cons_of_neg _ ha, List.find?_cons_of_neg _ ha, ih]

theorem find?_map_other {α : Type} (p q : α → Bool) (f : α → α)
    (h1 : ∀ a, p a = true → q a = false)
    (h2 : ∀ a, p a = true → q (f a) = false) (l : List α) :
    (l.map (fun a => if p a then f a else a)).find? q = l.find? q := by
  induction l with
  | nil => rfl
  | cons a l ih =>
    by_cases ha : p a
    · rw [List.map_cons, if_pos ha, List.find?_cons_of_neg _ (by simp [h2 a ha]),
        List.find?_cons_of_neg _ (by simp [h1 a ha]), ih]
    · by_cases hq : q a
      · rw [List.map_cons, if_neg ha, List.find?_cons_of_pos _ hq, List.find?_cons_of_pos _ hq]
      · rw [List.map_cons, if_neg ha, List.find?_cons_of_neg _ hq, List.find?_cons_of_neg _ hq, ih]

/-- A user found by `telegram_id` makes `ensure_user` (INSERT OR
IGNORE) a no-op. -/
theorem ensure_user_of_exists (db : DB) (telegram_id : Int) (name : String) (uid : Nat)
    (h : get_user_id db telegram_id = some uid) : ensure_user db telegram_id name = db := by
  unfold get_user_id at h
  rw [Option.map_eq_some'] at h
  obtain ⟨u, hu, -⟩ := h
  unfold ensure_user
  rw [if_pos (List.any_eq_true.mpr ⟨u, List.mem_of_find?_eq_some hu, List.find?_some hu⟩)]

/-- After `ensure_user`, the user row always exists: the `none`
branches the handlers carry for `get_user_id` are dead code. -/
theorem get_user_id_ensure_user_isSome (db : DB) (telegram_id : Int) (name : String) :
    (get_user_id (ensure_user db telegram_id name) telegram_id).isSome := by
  unfold ensure_user get_user_id
  by_cases h : db.users.any (fun u => u.telegram_id == telegram_id)
  · rw [if_pos h]
    obtain ⟨u, hu, hp⟩ := List.any_eq_true.mp h
    have hsome : (db.users.find? (fun u => u.telegram_id == telegram_id)).isSome :=
      List.find?_isSome.mpr ⟨u, hu, hp⟩
    obtain ⟨v, hv⟩ := Option.isSome_iff_exists.mp hsome
    rw [hv]
    rfl
  · rw [if_neg h]
    simp only [List.find?_append]
    rcases hfind : db.users.find? (fun u => u.telegram_id == telegram_id) with - | u
    · rw [hfind, Option.none_or, List.find?_cons_of_pos _ (by simp)]
      rfl
    · rw [hfind]
      rfl

/-- A positive `get_user_id` exhibits a user row with that id. -/
theorem exists_user_of_get_user_id (db : DB) (telegram_id : Int) (uid : Nat)
    (h : get_user_id db telegram_id = some uid) :
    ∃ u ∈ db.users, u.id = uid := by
  unfold get_user_id at h
  rw [Option.map_eq_some'] at h
  obtain ⟨u, hu, hid⟩ := h
  exact ⟨u, List.mem_of_find?_eq_some hu, hid⟩

/-- Resetting sets the observable count of an existing user to 0. -/
theorem get_message_count_reset (db : DB) (uid : Nat)
    (h : ∃ u ∈ db.users, u.id = uid) :
    get_message_count (reset_message_count db uid) uid = some 0 := by
  obtain ⟨u, hu, hid⟩ := h
  unfold get_message_count reset_message_count
  rw [find?_map_update (fun v => v.id == uid) (fun v => { v with message_count := 0 })
    (fun v => rfl) db.users]
  have hsome : (db.users.find? (fun v => v.id == uid)).isSome :=
    List.find?_isSome.mpr ⟨u, hu, by simp [hid]⟩
  obtain ⟨v, hv⟩ := Option.isSome_iff_exists.mp hsome
  rw [hv]
  rfl

/-- C1: when the verifier returns a signature whose transaction id is
already present in `payments`, the `/paid` handler's insert is
rejected by the uniqueness constraint, the store — in particular the
user's message count — is left unchanged, and the user is told the
payment was already used. -/
theorem C1_duplicate_payment_rejected (crypto : String) (sig_status : Nat)
    (txns : List (String × TxnResponse)) (db : DB) (telegram_id : Int) (name : String)
    (uid : Nat) (waddr txn_id : String)
    (h1 : get_user_id db telegram_id = some uid)
    (h2 : get_wallet db uid = some waddr)
    (h3 : verify_payment crypto waddr (1 / 1000) sig_status txns = some txn_id)
    (h4 : db.payments.any (fun p => p.transaction_id == txn_id) = true) :
    paid crypto sig_status txns db telegram_id name = (db, paymentUsedReply) := by
  unfold paid
  rw [ensure_user_of_exists db telegram_id name uid h1]
  simp only [h1, h2, h3, insert_payment, h4, if_true]

theorem C1_duplicate_payment_rejected_witness :
    paid "R" 200 [("TX1", ⟨200, some ⟨[⟨some ⟨some "transfer", ⟨some "R", some "S", some 1000000⟩⟩⟩]⟩⟩)]
      ⟨[⟨1, 7, "alice", 21⟩], [], [⟨1, "S"⟩], [⟨1, "TX1", 1 / 1000, "verified"⟩]⟩ 7 "alice"
    = (⟨[⟨1, 7, "alice", 21⟩], [], [⟨1, "S"⟩], [⟨1, "TX1", 1 / 1000, "verified"⟩]⟩, paymentUsedReply) := by
  refine C1_duplicate_payment_rejected "R" 200 _ _ 7 "alice" 1 "S" "TX1" rfl rfl ?_ rfl
  simp [verify_payment, scanTxns, instructionMatches]
  norm_num

/-- C5: when the verifier returns a signature with a fresh transaction
id for a user with a bound wallet, `/paid` inserts a payment row with
that transaction id and status "verified" and sets the user's message
count to exactly 0, replying "Payment verified!". -/
theorem C5_fresh_payment_inserts_and_resets (crypto : String) (sig_status : Nat)
    (txns : List (String × TxnResponse)) (db : DB) (telegram_id : Int) (name : String)
    (uid : Nat) (waddr txn_id : String)
    (h1 : get_user_id db telegram_id = some uid)
    (h2 : get_wallet db uid = some waddr)
    (h3 : verify_payment crypto waddr (1 / 1000) sig_status txns = some txn_id)
    (h4 : db.payments.any (fun p => p.transaction_id == txn_id) = false) :
    (paid crypto sig_status txns db telegram_id name).2 = paymentVerifiedReply
    ∧ (paid crypto sig_status txns db telegram_id name).1.payments
        = db.payments ++ [⟨uid, txn_id, 1 / 1000, "verified"⟩]
    ∧ get_message_count (paid crypto sig_status txns db telegram_id name).1 uid = some 0 := by
  have hpaid : paid crypto sig_status txns db telegram_id name
      = (reset_message_count
          { db with payments := db.payments ++ [⟨uid, txn_id, 1 / 1000, "verified"⟩] } uid,
        paymentVerifiedReply) := by
    unfold paid
    rw [ensure_user_of_exists db telegram_id name uid h1]
    simp only [h1, h2, h3, insert_payment, h4, Bool.false_eq_true, if_false]
  rw [hpaid]
  refine ⟨rfl, rfl, ?_⟩
  obtain ⟨u, hu, hid⟩ := exists_user_of_get_user_id db telegram_id uid h1
  exact get_message_count_reset _ uid ⟨u, hu, hid⟩

theorem C5_fresh_payment_inserts_and_resets_witness :
    (paid "R" 200 [("TX2", ⟨200, some ⟨[⟨some ⟨some "transfer", ⟨some "R", some "S", some 1000000⟩⟩⟩]⟩⟩)]
      ⟨[⟨1, 7, "alice", 21⟩], [], [⟨1, "S"⟩], [⟨1, "TX1", 1 / 1000, "verified"⟩]⟩ 7 "alice").2
      = paymentVerifiedReply
    ∧ (paid "R" 200 [("TX2", ⟨200, some ⟨[⟨some ⟨some "transfer", ⟨some "R", some "S", some 1000000⟩⟩⟩]⟩⟩)]
      ⟨[⟨1, 7, "alice", 21⟩], [], [⟨1, "S"⟩], [⟨1, "TX1", 1 / 1000, "verified"⟩]⟩ 7 "alice").1.payments
      = [⟨1, "TX1", 1 / 1000, "verified"⟩] ++ [⟨1, "TX2", 1 / 1000, "verified"⟩]
    ∧ get_message_count
        (paid "R" 200 [("TX2", ⟨200, some ⟨[⟨some ⟨some "transfer", ⟨some "R", some "S", some 1000000⟩⟩⟩]⟩⟩)]
          ⟨[⟨1, 7, "alice", 21⟩], [], [⟨1, "S"⟩], [⟨1, "TX1", 1 / 1000, "verified"⟩]⟩ 7 "alice").1 1
      = some 0 := by
  refine C5_fresh_payment_inserts_and_resets "R" 200 _ _ 7 "alice" 1 "S" "TX2" rfl rfl ?_ ?_
  · simp [verify_payment, scanTxns, instructionMatches]
    norm_num
  · simp

/-- C9: the `/paid` handler has no threshold precondition — for any
current message count c (also under the threshold), a bound wallet and
a fresh verified signature set the count to exactly 0. -/
theorem C9_paid_resets_regardless_of_count (crypto : String) (sig_status : Nat)
    (txns : List (String × TxnResponse)) (db : DB) (telegram_id : Int) (name : String)
    (uid : Nat) (c : Int) (waddr txn_id : String)
    (h1 : get_user_id db telegram_id = some uid)
    (hc : get_message_count db uid = some c)
    (h2 : get_wallet db uid = some waddr)
    (h3 : verify_payment crypto waddr (1 / 1000) sig_status txns = some txn_id)
    (h4 : db.payments.any (fun p => p.transaction_id == txn_id) = false) :
    get_message_count (paid crypto sig_status txns db telegram_id name).1 uid = some 0
    ∧ (paid crypto sig_status txns db telegram_id name).2 = paymentVerifiedReply := by
  have hpaid : paid crypto sig_status txns db telegram_id name
      = (reset_message_count
          { db with payments := db.payments ++ [⟨uid, txn_id, 1 / 1000, "verified"⟩] } uid,
        paymentVerifiedReply) := by
    unfold paid
    rw [ensure_user_of_exists db telegram_id name uid h1]
    simp only [h1, h2, h3, insert_payment, h4, Bool.false_eq_true, if_false]
  rw [hpaid]
  refine ⟨?_, rfl⟩
  obtain ⟨u, hu, hid⟩ := exists_user_of_get_user_id db telegram_id uid h1
  exact get_message_count_reset _ uid ⟨u, hu, hid⟩

theorem C9_paid_resets_regardless_of_count_witness :
    get_message_count
      (paid "R" 200 [("TX2", ⟨200, some ⟨[⟨some ⟨some "transfer", ⟨some "R", some "S", some 1000000⟩⟩⟩]⟩⟩)]
        ⟨[⟨1, 7, "alice", 3⟩], [], [⟨1, "S"⟩], []⟩ 7 "alice").1 1 = some 0
    ∧ (paid "R" 200 [("TX2", ⟨200, some ⟨[⟨some ⟨some "transfer", ⟨some "R", some "S", some 1000000⟩⟩⟩]⟩⟩)]
        ⟨[⟨1, 7, "alice", 3⟩], [], [⟨1, "S"⟩], []⟩ 7 "alice").2 = paymentVerifiedReply := by
  refine C9_paid_resets_regardless_of_count "R" 200 _ _ 7 "alice" 1 3 "S" "TX2" rfl rfl rfl ?_ rfl
  simp [verify_payment, scanTxns, instructionMatches]
  norm_num

/-- The store after the counter bump of `chat`, named for use in the
statement-level reasoning about `increment_message_count`. -/
def bumpCount (db : DB) (uid : Nat) : DB :=
  let users' := db.users.map
    (fun v => if v.id == uid then { v with message_count := v.message_count + 1 } else v)
  { db with users := users' }

/-- C6: on an inbound text the counter is incremented first; when the
new count exceeds 20 the handler returns early — no model call, no
message persisted, incremented count kept — prompting for wallet
binding when none is bound and for payment when one is. -/
theorem C6_over_threshold_blocks (crypto : String) (gen : List (String × String) → String)
    (db : DB) (telegram_id : Int) (name text : String) (uid : Nat) (c : Int)
    (h1 : get_user_id db telegram_id = some uid)
    (hc : get_message_count db uid = some c)
    (hthr : 20 < c + 1) :
    (chat crypto gen db telegram_id name text).2.2 = false
    ∧ (chat crypto gen db telegram_id name text).1.messages = db.messages
    ∧ get_message_count (chat crypto gen db telegram_id name text).1 uid = some (c + 1)
    ∧ (chat crypto gen db telegram_id name text).2.1
        = (if (get_wallet db uid).isSome then limitReachedReply crypto else noWalletReply) := by
  unfold get_message_count at hc
  rw [Option.map_eq_some'] at hc
  obtain ⟨u, hu, hcnt⟩ := hc
  have hmap := find?_map_update (fun v => v.id == uid)
    (fun v => { v with message_count := v.message_count + 1 }) (fun v => rfl) db.users
  have hchat : chat crypto gen db telegram_id name text
      = (bumpCount db uid,
         (if (get_wallet db uid).isSome then limitReachedReply crypto else noWalletReply),
         false) := by
    rcases hfind : List.find? (fun w => w.user_id == uid) db.wallets with - | w
    all_goals
      unfold chat bumpCount
      rw [ensure_user_of_exists db telegram_id name uid h1]
      simp only [h1, increment_message_count]
      rw [hmap, hu]
      simp only [Option.map_some']
      rw [if_pos (show (20 : Int) < u.message_count + 1 by rw [hcnt]; exact hthr)]
      simp [get_wallet, hfind]
  rw [hchat]
  refine ⟨rfl, rfl, ?_, rfl⟩
  simp only [get_message_count, bumpCount]
  rw [hmap, hu]
  simp [hcnt]

theorem C6_over_threshold_blocks_witness :
    (chat "R" (fun _ => "ok") ⟨[⟨1, 7, "alice", 20⟩], [], [], []⟩ 7 "alice" "hi").2.2 = false
    ∧ (chat "R" (fun _ => "ok") ⟨[⟨1, 7, "alice", 20⟩], [], [], []⟩ 7 "alice" "hi").1.messages
        = ([] : List MessageRow)
    ∧ get_message_count
        (chat "R" (fun _ => "ok") ⟨[⟨1, 7, "alice", 20⟩], [], [], []⟩ 7 "alice" "hi").1 1
        = some 21
    ∧ (chat "R" (fun _ => "ok") ⟨[⟨1, 7, "alice", 20⟩], [], [], []⟩ 7 "alice" "hi").2.1
        = (if (get_wallet ⟨[⟨1, 7, "alice", 20⟩], [], [], []⟩ 1).isSome then
            limitReachedReply "R" else noWalletReply) := by
  have h := C6_over_threshold_blocks "R" (fun _ => "ok")
    ⟨[⟨1, 7, "alice", 20⟩], [], [], []⟩ 7 "alice" "hi" 1 20 rfl rfl (by norm_num)
  refine ⟨h.1, h.2.1, ?_, h.2.2.2⟩
  rw [h.2.2.1]
  norm_num

/-! ## Wallet upsert lemmas -/

theorem get_wallet_upsert_self (db : DB) (uid : Nat) (addr : String) :
    get_wallet (upsert_wallet db uid addr) uid = some addr := by
  by_cases h : db.wallets.any (fun w => w.user_id == uid)
  · simp only [get_wallet, upsert_wallet, h, if_true]
    rw [find?_map_update (fun w => w.user_id == uid)
      (fun w => { w with wallet_address := addr }) (fun w => rfl) db.wallets]
    obtain ⟨w, hw, hp⟩ := List.any_eq_true.mp h
    have hsome : (db.wallets.find? (fun w => w.user_id == uid)).isSome :=
      List.find?_isSome.mpr ⟨w, hw, hp⟩
    obtain ⟨v, hv⟩ := Option.isSome_iff_exists.mp hsome
    rw [hv]
    rfl
  · simp only [get_wallet, upsert_wallet, h, Bool.false_eq_true, if_false, List.find?_append]
    have hnone : db.wallets.find? (fun w => w.user_id == uid) = none := by
      rw [List.find?_eq_none]
      intro x hx hpx
      exact h (List.any_eq_true.mpr ⟨x, hx, hpx⟩)
    rw [hnone, Option.none_or, List.find?_cons_of_pos _ (by simp)]
    rfl

theorem get_wallet_upsert_other (db : DB) (uid uid' : Nat) (addr : String)
    (hne : uid' ≠ uid) :
    get_wallet (upsert_wallet db uid addr) uid' = get_wallet db uid' := by
  by_cases h : db.wallets.any (fun w => w.user_id == uid)
  · simp only [get_wallet, upsert_wallet, h, if_true]
    rw [find?_map_other (fun w => w.user_id == uid) (fun w => w.user_id == uid')
      (fun w => { w with wallet_address := addr })
      (fun w hw => by simp at hw ⊢; omega)
      (fun w hw => by simp at hw ⊢; omega) db.wallets]
  · simp only [get_wallet, upsert_wallet, h, Bool.false_eq_true, if_false, List.find?_append]
    rw [List.find?_cons_of_neg _ (by simp; omega)]
    simp

theorem upsert_wallet_only_wallets (db : DB) (uid : Nat) (addr : String) :
    (upsert_wallet db uid addr).users = db.users
    ∧ (upsert_wallet db uid addr).messages = db.messages
    ∧ (upsert_wallet db uid addr).payments = db.payments := by
  unfold upsert_wallet
  by_cases h : db.wallets.any (fun w => w.user_id == uid) <;> simp [h]

/-- C7: the `/wallet` command accepts its argument exactly when it is a
44-character alphanumeric string, upserting it as the user's single
bound wallet (last write wins, other users untouched); any other
argument is rejected with no store mutation. -/
theorem C7_wallet_binding_validation (db : DB) (telegram_id : Int) (name : String)
    (uid : Nat) (addr : String) (restArgs : List String)
    (h1 : get_user_id db telegram_id = some uid) :
    ((addr.length = 44 ∧ pyIsAlnum addr = true) →
      wallet db telegram_id name (addr :: restArgs)
        = (upsert_wallet db uid addr, walletSavedReply addr)
      ∧ get_wallet (upsert_wallet db uid addr) uid = some addr
      ∧ (∀ uid', uid' ≠ uid →
          get_wallet (upsert_wallet db uid addr) uid' = get_wallet db uid')
      ∧ (upsert_wallet db uid addr).users = db.users)
    ∧ ((addr.length ≠ 44 ∨ pyIsAlnum addr = false) →
      wallet db telegram_id name (addr :: restArgs) = (db, invalidWalletReply)) := by
  constructor
  · rintro ⟨hlen, halnum⟩
    refine ⟨?_, get_wallet_upsert_self db uid addr,
      fun uid' hne => get_wallet_upsert_other db uid uid' addr hne,
      (upsert_wallet_only_wallets db uid addr).1⟩
    unfold wallet
    rw [ensure_user_of_exists db telegram_id name uid h1]
    simp only [h1]
    simp [hlen, halnum]
  · intro hbad
    unfold wallet
    rw [ensure_user_of_exists db telegram_id name uid h1]
    simp only [h1]
    rcases hbad with hlen | halnum
    · rw [if_pos (by simp [hlen])]
    · rw [if_pos (by simp [halnum])]

theorem C7_wallet_binding_validation_witness :
    wallet ⟨[⟨1, 7, "alice", 0⟩], [], [], []⟩ 7 "alice"
        ["AAAAAAAAAAAAAAAAAAAAAAAAAAAAAAAAAAAAAAAAAAAA"]
      = (upsert_wallet ⟨[⟨1, 7, "alice", 0⟩], [], [], []⟩ 1
          "AAAAAAAAAAAAAAAAAAAAAAAAAAAAAAAAAAAAAAAAAAAA",
        walletSavedReply "AAAAAAAAAAAAAAAAAAAAAAAAAAAAAAAAAAAAAAAAAAAA")
    ∧ wallet ⟨[⟨1, 7, "alice", 0⟩], [], [], []⟩ 7 "alice" ["short!"]
      = (⟨[⟨1, 7, "alice", 0⟩], [], [], []⟩, invalidWalletReply) := by
  constructor
  · exact ((C7_wallet_binding_validation ⟨[⟨1, 7, "alice", 0⟩], [], [], []⟩ 7 "alice" 1
      "AAAAAAAAAAAAAAAAAAAAAAAAAAAAAAAAAAAAAAAAAAAA" [] rfl).1 ⟨rfl, rfl⟩).1
  · exact (C7_wallet_binding_validation ⟨[⟨1, 7, "alice", 0⟩], [], [], []⟩ 7 "alice" 1
      "short!" [] rfl).2 (Or.inl (by decide))

/-- C8 (counterexample): a parsed model reply that is a JSON object
with a string `message` field but no `plan` field does NOT get its
message returned: the debug-log access of `result` at key `plan`
raises `KeyError` inside the `try`, so the handler returns the caught
error string instead. -/
theorem C8_plan_absence_changes_reply :
    generate_response_parsed [("message", Json.str "hi")] ≠ Json.str "hi" := by
  have h0 : generate_response_parsed [("message", Json.str "hi")]
      = Json.str "Error: \x27plan\x27" := rfl
  rw [h0]
  intro hcontra
  injection hcontra with hs
  exact absurd hs (by decide)

/-- C8 (amended): when the parsed reply object carries BOTH a `plan`
field and a `message` field, the orchestrator returns the `message`
value (the `plan` value itself only feeds the debug log); when `plan`
is absent the caught `KeyError` turns the reply into the literal error
string, so `plan` is effectively required, not optional. -/
theorem C8_message_returned_when_plan_present (result : List (String × Json)) :
    (∀ pl v, lookupField result "plan" = some pl →
      lookupField result "message" = some v → generate_response_parsed result = v)
    ∧ (lookupField result "plan" = none →
      generate_response_parsed result = Json.str "Error: \x27plan\x27") := by
  constructor
  · intro pl v hp hm
    unfold generate_response_parsed
    rw [hp, hm]
  · intro hp
    unfold generate_response_parsed
    rw [hp]

theorem C8_message_returned_when_plan_present_witness :
    generate_response_parsed [("plan", Json.arr []), ("message", Json.str "ok")]
      = Json.str "ok" :=
  (C8_message_returned_when_plan_present [("plan", Json.arr []), ("message", Json.str "ok")]).1
    (Json.arr []) (Json.str "ok") rfl rfl
